import Mathlib

/-!
Verification of `official/vision/beta/modeling/decoders/factory.py`.

The file embeds the `build_decoder` factory function as a pure Lean
function.  External objects are modelled as follows:

* `tf.TensorShape` is an opaque shape descriptor, modelled as `List Nat`;
* `input_specs : Mapping[str, tf.TensorShape]` is an association list
  `List (String × List Nat)`;
* the optional `l2_regularizer` object is an opaque handle `Option Nat`;
* `hyperparams.Config` is modelled structurally: only the fields the
  factory reads appear, each with a concrete Lean type of matching shape
  (booleans as `Bool`, integers as `Nat`, floats as `Rat`, strings as
  `String`, lists as `List _`);
* the four external decoder constructors (`decoders.FPN`,
  `decoders.NASFPN`, `decoders.ASPP`, `decoders.MRFM`) are free
  constructors of an inductive type that record their arguments in the
  order the source passes them, so "returns the result of calling the
  constructor with these arguments" becomes an equation on that
  inductive;
* raising `ValueError` is modelled by `Except.error` carrying the
  formatted message.
-/

/-- A tensor shape, standing in for `tf.TensorShape`. -/
abbrev TensorShape := List Nat

/-- The `input_specs` mapping `{level: TensorShape}` from a backbone. -/
abbrev InputSpecs := List (String × TensorShape)

/-- Opaque handle for a `tf.keras.regularizers.Regularizer` instance. -/
abbrev Regularizer := Nat

/-- The shared `norm_activation` sub-record of the model config
(fields read by the factory: `activation`, `use_sync_bn`,
`norm_momentum`, `norm_epsilon`). -/
structure NormActivation where
  activation : String
  use_sync_bn : Bool
  norm_momentum : Rat
  norm_epsilon : Rat
deriving DecidableEq

/-- The per-type decoder sub-record returned by
`model_config.decoder.get()`.  It is duck-typed in Python; the model is
the superset of all fields the factory reads on any branch. -/
structure DecoderCfg where
  num_filters : Nat
  use_separable_conv : Bool
  num_repeats : Nat
  level : Nat
  dilation_rates : List Nat
  pool_kernel_size : List Nat
  dropout_rate : Rat
  fml_from_layer : List String
  fml_layer_depth : List Int
  depth_multiplier : Rat
  min_depth : Nat
  insert_1x1_conv : Bool
  kernel_size : Nat
  use_explicit_padding : Bool
  use_depthwise : Bool
deriving DecidableEq

/-- The `model_config.decoder` one-of config: a discriminator string
`type` and the active sub-config delivered by `.get()`. -/
structure DecoderOneOf where
  type : String
  active : DecoderCfg
deriving DecidableEq

/-- `model_config.decoder.get()`: returns the active per-type
sub-config. -/
def DecoderOneOf.get (d : DecoderOneOf) : DecoderCfg := d.active

/-- The fields of `model_config` that `build_decoder` reads. -/
structure ModelConfig where
  decoder : DecoderOneOf
  min_level : Nat
  max_level : Nat
  norm_activation : NormActivation
deriving DecidableEq

/-- The `feature_map_layout` dict built in the `mrfm` branch:
`{decoders.mrfm.FROM_LAYER: ..., decoders.mrfm.LAYER_DEPTH: ...}`.
The two keys are distinct string constants of the external `mrfm`
module, so the dict is exactly a record with these two entries. -/
structure FeatureMapLayout where
  from_layer : List String
  layer_depth : List Int
deriving DecidableEq

/-- A constructed decoder model.  Each constructor is the external
model-building routine of the same name; its arguments are recorded in
the order the factory passes them (keyword arguments in source order). -/
inductive DecoderModel where
  | FPN (input_specs : InputSpecs) (min_level : Nat) (max_level : Nat)
      (num_filters : Nat) (use_separable_conv : Bool)
      (activation : String) (use_sync_bn : Bool)
      (norm_momentum : Rat) (norm_epsilon : Rat)
      (kernel_regularizer : Option Regularizer)
  | NASFPN (input_specs : InputSpecs) (min_level : Nat) (max_level : Nat)
      (num_filters : Nat) (num_repeats : Nat) (use_separable_conv : Bool)
      (activation : String) (use_sync_bn : Bool)
      (norm_momentum : Rat) (norm_epsilon : Rat)
      (kernel_regularizer : Option Regularizer)
  | ASPP (level : Nat) (dilation_rates : List Nat) (num_filters : Nat)
      (pool_kernel_size : List Nat) (dropout_rate : Rat)
      (use_sync_bn : Bool) (norm_momentum : Rat) (norm_epsilon : Rat)
      (activation : String) (kernel_regularizer : Option Regularizer)
  | MRFM (input_specs : InputSpecs) (feature_map_layout : FeatureMapLayout)
      (depth_multiplier : Rat) (min_depth : Nat) (insert_1x1_conv : Bool)
      (kernel_size : Nat) (use_explicit_padding : Bool)
      (use_depthwise : Bool) (activation : String) (use_sync_bn : Bool)
      (norm_momentum : Rat) (norm_epsilon : Rat)
      (kernel_regularizer : Option Regularizer)
deriving DecidableEq

/-- The message of the `ValueError` raised on an unknown decoder type:
`'Decoder {!r} not implement'.format(decoder_type)`. -/
def unknownDecoderMsg (decoder_type : String) : String :=
  "Decoder " ++ decoder_type ++ " not implement"

/-- `build_decoder` from
`official/vision/beta/modeling/decoders/factory.py`.  A raised
`ValueError` is `Except.error`; the `identity` branch returns the
explicit `None`, so the payload type is `Option DecoderModel`. -/
def build_decoder (input_specs : InputSpecs) (model_config : ModelConfig)
    (l2_regularizer : Option Regularizer) :
    Except String (Option DecoderModel) :=
  let decoder_type := model_config.decoder.type
  let decoder_cfg := model_config.decoder.get
  let norm_activation_config := model_config.norm_activation
  if decoder_type = "identity" then
    Except.ok Option.none
  else if decoder_type = "fpn" then
    Except.ok (Option.some (DecoderModel.FPN
      input_specs
      model_config.min_level
      model_config.max_level
      decoder_cfg.num_filters
      decoder_cfg.use_separable_conv
      norm_activation_config.activation
      norm_activation_config.use_sync_bn
      norm_activation_config.norm_momentum
      norm_activation_config.norm_epsilon
      l2_regularizer))
  else if decoder_type = "nasfpn" then
    Except.ok (Option.some (DecoderModel.NASFPN
      input_specs
      model_config.min_level
      model_config.max_level
      decoder_cfg.num_filters
      decoder_cfg.num_repeats
      decoder_cfg.use_separable_conv
      norm_activation_config.activation
      norm_activation_config.use_sync_bn
      norm_activation_config.norm_momentum
      norm_activation_config.norm_epsilon
      l2_regularizer))
  else if decoder_type = "aspp" then
    Except.ok (Option.some (DecoderModel.ASPP
      decoder_cfg.level
      decoder_cfg.dilation_rates
      decoder_cfg.num_filters
      decoder_cfg.pool_kernel_size
      decoder_cfg.dropout_rate
      norm_activation_config.use_sync_bn
      norm_activation_config.norm_momentum
      norm_activation_config.norm_epsilon
      norm_activation_config.activation
      l2_regularizer))
  else if decoder_type = "mrfm" then
    Except.ok (Option.some (DecoderModel.MRFM
      input_specs
      (FeatureMapLayout.mk decoder_cfg.fml_from_layer decoder_cfg.fml_layer_depth)
      decoder_cfg.depth_multiplier
      decoder_cfg.min_depth
      decoder_cfg.insert_1x1_conv
      decoder_cfg.kernel_size
      decoder_cfg.use_explicit_padding
      decoder_cfg.use_depthwise
      norm_activation_config.activation
      norm_activation_config.use_sync_bn
      norm_activation_config.norm_momentum
      norm_activation_config.norm_epsilon
      l2_regularizer))
  else
    Except.error (unknownDecoderMsg decoder_type)

/-- The five known discriminator strings. -/
def knownDecoderTypes : List String :=
  ["identity", "fpn", "nasfpn", "aspp", "mrfm"]

/-- State-passing translation of `build_decoder` for the frame
property: the three arguments are threaded through every statement of
the function body and returned next to the result.  The source contains
no assignment to `input_specs`, `model_config` or `l2_regularizer` (and
no call that takes them by mutable reference), so each statement passes
them on unchanged. -/
def build_decoder_frame (input_specs : InputSpecs)
    (model_config : ModelConfig) (l2_regularizer : Option Regularizer) :
    Except String (Option DecoderModel) ×
      (InputSpecs × ModelConfig × Option Regularizer) :=
  (build_decoder input_specs model_config l2_regularizer,
   (input_specs, model_config, l2_regularizer))

/-- Instrumented translation of `build_decoder` that also returns, in
program order, the accesses it performs on its configuration argument.
The three prologue reads (lines 45-47 of the source) happen before the
`if`/`elif` chain; the branch taken then contributes its own field
reads. -/
def build_decoder_reads (input_specs : InputSpecs)
    (model_config : ModelConfig) (l2_regularizer : Option Regularizer) :
    Except String (Option DecoderModel) × List String :=
  let prologue := ["model_config.decoder.type", "model_config.decoder.get",
    "model_config.norm_activation"]
  let decoder_type := model_config.decoder.type
  let branch : List String :=
    if decoder_type = "identity" then []
    else if decoder_type = "fpn" then
      ["model_config.min_level", "model_config.max_level",
       "decoder_cfg.num_filters", "decoder_cfg.use_separable_conv",
       "norm_activation_config.activation",
       "norm_activation_config.use_sync_bn",
       "norm_activation_config.norm_momentum",
       "norm_activation_config.norm_epsilon"]
    else if decoder_type = "nasfpn" then
      ["model_config.min_level", "model_config.max_level",
       "decoder_cfg.num_filters", "decoder_cfg.num_repeats",
       "decoder_cfg.use_separable_conv",
       "norm_activation_config.activation",
       "norm_activation_config.use_sync_bn",
       "norm_activation_config.norm_momentum",
       "norm_activation_config.norm_epsilon"]
    else if decoder_type = "aspp" then
      ["decoder_cfg.level", "decoder_cfg.dilation_rates",
       "decoder_cfg.num_filters", "decoder_cfg.pool_kernel_size",
       "decoder_cfg.dropout_rate",
       "norm_activation_config.use_sync_bn",
       "norm_activation_config.norm_momentum",
       "norm_activation_config.norm_epsilon",
       "norm_activation_config.activation"]
    else if decoder_type = "mrfm" then
      ["decoder_cfg.fml_from_layer", "decoder_cfg.fml_layer_depth",
       "decoder_cfg.depth_multiplier", "decoder_cfg.min_depth",
       "decoder_cfg.insert_1x1_conv", "decoder_cfg.kernel_size",
       "decoder_cfg.use_explicit_padding", "decoder_cfg.use_depthwise",
       "norm_activation_config.activation",
       "norm_activation_config.use_sync_bn",
       "norm_activation_config.norm_momentum",
       "norm_activation_config.norm_epsilon"]
    else []
  (build_decoder input_specs model_config l2_regularizer,
   prologue ++ branch)

/-- A concrete decoder sub-config used by the witnesses. -/
def exDecoderCfg : DecoderCfg :=
  { num_filters := 256
    use_separable_conv := false
    num_repeats := 5
    level := 3
    dilation_rates := [6, 12, 18]
    pool_kernel_size := [512, 512]
    dropout_rate := 1/10
    fml_from_layer := ["layer_a", "layer_b"]
    fml_layer_depth := [-1, 128]
    depth_multiplier := 1
    min_depth := 16
    insert_1x1_conv := true
    kernel_size := 3
    use_explicit_padding := false
    use_depthwise := true }

/-- A concrete `norm_activation` sub-record used by the witnesses. -/
def exNorm : NormActivation :=
  { activation := "relu"
    use_sync_bn := true
    norm_momentum := 99/100
    norm_epsilon := 1/1000 }

/-- A concrete model config with the given discriminator string. -/
def mkModelConfig (t : String) : ModelConfig :=
  { decoder := { type := t, active := exDecoderCfg }
    min_level := 3
    max_level := 7
    norm_activation := exNorm }

/-- A concrete `input_specs` mapping used by the witnesses. -/
def exSpecs : InputSpecs :=
  [("3", [8, 64, 64, 256]), ("4", [8, 32, 32, 512])]

/-- A second, different `input_specs` mapping used by the witnesses. -/
def exSpecsB : InputSpecs :=
  [("5", [8, 16, 16, 1024])]

/-- C1: `build_decoder` raises the unknown-decoder-type `ValueError`
exactly when the discriminator `model_config.decoder.type` is none of
the five known strings; for each of the five known values it returns
without raising. -/
theorem build_decoder_error_iff_unknown (s : InputSpecs) (c : ModelConfig)
    (r : Option Regularizer) :
    (build_decoder s c r =
        Except.error (unknownDecoderMsg c.decoder.type)) ↔
      c.decoder.type ∉ knownDecoderTypes := by
  simp only [build_decoder, knownDecoderTypes]
  split_ifs with h1 h2 h3 h4 h5 <;> simp_all

/-- C2: when the discriminator is `identity`, `build_decoder` returns
the explicit `None` and invokes none of the four decoder
constructors. -/
theorem build_decoder_identity (s : InputSpecs) (c : ModelConfig)
    (r : Option Regularizer) (h : c.decoder.type = "identity") :
    build_decoder s c r = Except.ok Option.none := by
  unfold build_decoder
  simp [h]

theorem build_decoder_identity_witness :
    build_decoder exSpecs (mkModelConfig "identity") (Option.some 7) =
      Except.ok Option.none :=
  build_decoder_identity exSpecs (mkModelConfig "identity")
    (Option.some 7) rfl

/-- C3: when the discriminator is `fpn`, `build_decoder` returns the
`FPN` constructor applied to `input_specs`, `model_config.min_level`,
`model_config.max_level`, the sub-record's `num_filters` and
`use_separable_conv`, the shared `norm_activation` fields and
`l2_regularizer` as `kernel_regularizer`, all unchanged. -/
theorem build_decoder_fpn (s : InputSpecs) (c : ModelConfig)
    (r : Option Regularizer) (h : c.decoder.type = "fpn") :
    build_decoder s c r = Except.ok (Option.some (DecoderModel.FPN
      s c.min_level c.max_level
      c.decoder.get.num_filters c.decoder.get.use_separable_conv
      c.norm_activation.activation c.norm_activation.use_sync_bn
      c.norm_activation.norm_momentum c.norm_activation.norm_epsilon
      r)) := by
  unfold build_decoder
  simp [h]

theorem build_decoder_fpn_witness :
    build_decoder exSpecs (mkModelConfig "fpn") (Option.some 7) =
      Except.ok (Option.some (DecoderModel.FPN
        exSpecs (mkModelConfig "fpn").min_level
        (mkModelConfig "fpn").max_level
        (mkModelConfig "fpn").decoder.get.num_filters
        (mkModelConfig "fpn").decoder.get.use_separable_conv
        (mkModelConfig "fpn").norm_activation.activation
        (mkModelConfig "fpn").norm_activation.use_sync_bn
        (mkModelConfig "fpn").norm_activation.norm_momentum
        (mkModelConfig "fpn").norm_activation.norm_epsilon
        (Option.some 7))) :=
  build_decoder_fpn exSpecs (mkModelConfig "fpn") (Option.some 7) rfl

/-- C4: when the discriminator is `nasfpn`, `build_decoder` returns the
`NASFPN` constructor applied to `input_specs`, the min/max levels, the
sub-record's `num_filters`, `num_repeats` and `use_separable_conv`,
the shared `norm_activation` fields and `l2_regularizer`, all
unchanged. -/
theorem build_decoder_nasfpn (s : InputSpecs) (c : ModelConfig)
    (r : Option Regularizer) (h : c.decoder.type = "nasfpn") :
    build_decoder s c r = Except.ok (Option.some (DecoderModel.NASFPN
      s c.min_level c.max_level
      c.decoder.get.num_filters c.decoder.get.num_repeats
      c.decoder.get.use_separable_conv
      c.norm_activation.activation c.norm_activation.use_sync_bn
      c.norm_activation.norm_momentum c.norm_activation.norm_epsilon
      r)) := by
  unfold build_decoder
  simp [h]

theorem build_decoder_nasfpn_witness :
    build_decoder exSpecs (mkModelConfig "nasfpn") (Option.some 7) =
      Except.ok (Option.some (DecoderModel.NASFPN
        exSpecs (mkModelConfig "nasfpn").min_level
        (mkModelConfig "nasfpn").max_level
        (mkModelConfig "nasfpn").decoder.get.num_filters
        (mkModelConfig "nasfpn").decoder.get.num_repeats
        (mkModelConfig "nasfpn").decoder.get.use_separable_conv
        (mkModelConfig "nasfpn").norm_activation.activation
        (mkModelConfig "nasfpn").norm_activation.use_sync_bn
        (mkModelConfig "nasfpn").norm_activation.norm_momentum
        (mkModelConfig "nasfpn").norm_activation.norm_epsilon
        (Option.some 7))) :=
  build_decoder_nasfpn exSpecs (mkModelConfig "nasfpn") (Option.some 7) rfl

/-- C5: when the discriminator is `aspp`, `build_decoder` returns the
`ASPP` constructor applied to the sub-record's `level`,
`dilation_rates`, `num_filters`, `pool_kernel_size` and `dropout_rate`,
the shared `norm_activation` fields and `l2_regularizer`, all
unchanged. -/
theorem build_decoder_aspp (s : InputSpecs) (c : ModelConfig)
    (r : Option Regularizer) (h : c.decoder.type = "aspp") :
    build_decoder s c r = Except.ok (Option.some (DecoderModel.ASPP
      c.decoder.get.level c.decoder.get.dilation_rates
      c.decoder.get.num_filters c.decoder.get.pool_kernel_size
      c.decoder.get.dropout_rate
      c.norm_activation.use_sync_bn
      c.norm_activation.norm_momentum c.norm_activation.norm_epsilon
      c.norm_activation.activation
      r)) := by
  unfold build_decoder
  simp [h]

theorem build_decoder_aspp_witness :
    build_decoder exSpecs (mkModelConfig "aspp") (Option.some 7) =
      Except.ok (Option.some (DecoderModel.ASPP
        (mkModelConfig "aspp").decoder.get.level
        (mkModelConfig "aspp").decoder.get.dilation_rates
        (mkModelConfig "aspp").decoder.get.num_filters
        (mkModelConfig "aspp").decoder.get.pool_kernel_size
        (mkModelConfig "aspp").decoder.get.dropout_rate
        (mkModelConfig "aspp").norm_activation.use_sync_bn
        (mkModelConfig "aspp").norm_activation.norm_momentum
        (mkModelConfig "aspp").norm_activation.norm_epsilon
        (mkModelConfig "aspp").norm_activation.activation
        (Option.some 7))) :=
  build_decoder_aspp exSpecs (mkModelConfig "aspp") (Option.some 7) rfl

/-- C6: when the discriminator is `mrfm`, `build_decoder` returns the
`MRFM` constructor applied to `input_specs`, a `feature_map_layout`
built from the sub-record's `fml_from_layer` and `fml_layer_depth`
under the `FROM_LAYER` and `LAYER_DEPTH` keys, the remaining sub-record
fields, the shared `norm_activation` fields and `l2_regularizer`, all
unchanged. -/
theorem build_decoder_mrfm (s : InputSpecs) (c : ModelConfig)
    (r : Option Regularizer) (h : c.decoder.type = "mrfm") :
    build_decoder s c r = Except.ok (Option.some (DecoderModel.MRFM
      s
      (FeatureMapLayout.mk c.decoder.get.fml_from_layer
        c.decoder.get.fml_layer_depth)
      c.decoder.get.depth_multiplier c.decoder.get.min_depth
      c.decoder.get.insert_1x1_conv c.decoder.get.kernel_size
      c.decoder.get.use_explicit_padding c.decoder.get.use_depthwise
      c.norm_activation.activation c.norm_activation.use_sync_bn
      c.norm_activation.norm_momentum c.norm_activation.norm_epsilon
      r)) := by
  unfold build_decoder
  simp [h]

theorem build_decoder_mrfm_witness :
    build_decoder exSpecs (mkModelConfig "mrfm") (Option.some 7) =
      Except.ok (Option.some (DecoderModel.MRFM
        exSpecs
        (FeatureMapLayout.mk
          (mkModelConfig "mrfm").decoder.get.fml_from_layer
          (mkModelConfig "mrfm").decoder.get.fml_layer_depth)
        (mkModelConfig "mrfm").decoder.get.depth_multiplier
        (mkModelConfig "mrfm").decoder.get.min_depth
        (mkModelConfig "mrfm").decoder.get.insert_1x1_conv
        (mkModelConfig "mrfm").decoder.get.kernel_size
        (mkModelConfig "mrfm").decoder.get.use_explicit_padding
        (mkModelConfig "mrfm").decoder.get.use_depthwise
        (mkModelConfig "mrfm").norm_activation.activation
        (mkModelConfig "mrfm").norm_activation.use_sync_bn
        (mkModelConfig "mrfm").norm_activation.norm_momentum
        (mkModelConfig "mrfm").norm_activation.norm_epsilon
        (Option.some 7))) :=
  build_decoder_mrfm exSpecs (mkModelConfig "mrfm") (Option.some 7) rfl

/-- C7: `build_decoder` consumes its three arguments read-only: the
state-passing translation returns `input_specs`, `model_config` and
`l2_regularizer` unchanged, whether the call returns or raises, and
its result agrees with `build_decoder`. -/
theorem build_decoder_frame_readonly (s : InputSpecs) (c : ModelConfig)
    (r : Option Regularizer) :
    (build_decoder_frame s c r).2 = (s, c, r) ∧
      (build_decoder_frame s c r).1 = build_decoder s c r := by
  exact ⟨rfl, rfl⟩

/-- C8: discriminator matching is exact and case-sensitive: with
`decoder.type` set to `FPN` or to `Identity` — differing from a known
variant only in letter case — `build_decoder` raises the
unknown-decoder-type `ValueError` instead of routing to any
constructor. -/
theorem build_decoder_case_sensitive :
    build_decoder exSpecs (mkModelConfig "FPN") (Option.some 7) =
        Except.error (unknownDecoderMsg "FPN") ∧
      build_decoder exSpecs (mkModelConfig "Identity") (Option.some 7) =
        Except.error (unknownDecoderMsg "Identity") := by
  exact ⟨rfl, rfl⟩

/-- C9: on every call, the instrumented `build_decoder_reads` performs
the three prologue accesses `model_config.decoder.type`,
`model_config.decoder.get` and `model_config.norm_activation`, in that
order, before any branch-specific access — in particular also when the
discriminator is `identity` or unrecognized — and its result agrees
with `build_decoder`. -/
theorem build_decoder_reads_prologue (s : InputSpecs) (c : ModelConfig)
    (r : Option Regularizer) :
    (build_decoder_reads s c r).2.take 3 =
        ["model_config.decoder.type", "model_config.decoder.get",
          "model_config.norm_activation"] ∧
      (build_decoder_reads s c r).1 = build_decoder s c r := by
  exact ⟨rfl, rfl⟩

/-- C10: when the discriminator is `aspp`, the result of
`build_decoder` does not depend on `input_specs`: two calls with the
same `model_config` and `l2_regularizer` but different `input_specs`
return the same constructed `ASPP` decoder. -/
theorem build_decoder_aspp_ignores_specs (s1 s2 : InputSpecs)
    (c : ModelConfig) (r : Option Regularizer)
    (h : c.decoder.type = "aspp") :
    build_decoder s1 c r = build_decoder s2 c r := by
  simp only [build_decoder]
  simp [h]

theorem build_decoder_aspp_ignores_specs_witness :
    build_decoder exSpecs (mkModelConfig "aspp") (Option.some 7) =
      build_decoder exSpecsB (mkModelConfig "aspp") (Option.some 7) :=
  build_decoder_aspp_ignores_specs exSpecs exSpecsB
    (mkModelConfig "aspp") (Option.some 7) rfl
